import Mathlib

/-!
Shallow embedding of the OpenFoodFacts viewer (src/main.rs): the
fetch-and-display controller state, the message protocol between worker
threads and the UI loop, the per-frame message drain, and the worker
thread bodies. Field and type names follow the Rust source; the
channel endpoints (`message_sender`/`message_receiver`) are not part of
the modelled state — the drain loop is modelled as a function of the
list of messages pending in the channel, in arrival order, and a worker
thread body is modelled as a function from the results of its fallible
external calls (HTTP transport and serde decoding, black boxes per the
source) to the message it sends, `none` standing for a thread that
panics on an `unwrap` and sends nothing.
-/

namespace OpenFoodFacts

/-- Rust `struct Product` (search summary): `code` and `product_name`
are both `Option<String>`. -/
structure Product where
  code : Option String
  product_name : Option String
deriving DecidableEq, Repr

/-- Rust `struct ProductDetails`: `code` is mandatory, the rest optional. -/
structure ProductDetails where
  code : String
  product_name : Option String
  ingredients_text : Option String
  brands : Option String
deriving DecidableEq, Repr

/-- Rust `enum View`. -/
inductive View where
  | SearchResults
  | ProductDetails
deriving DecidableEq, Repr

/-- Rust `enum Message`: the outcome a worker thread sends over the channel. -/
inductive Message where
  | SearchResults (results : List Product)
  | ProductDetails (details : ProductDetails)
  | Error (err : String)
deriving DecidableEq, Repr

/-- Rust `struct OpenFoodFactsViewer` minus the two channel endpoints:
the controller state the UI reads. -/
structure OpenFoodFactsViewer where
  search_term : String
  search_results : List Product
  selected_product : Option ProductDetails
  view : View
  is_loading : Bool
  error_message : Option String
deriving DecidableEq, Repr

/-- Rust `OpenFoodFactsViewer::new` (src/main.rs lines 56-68): the initial
controller state. -/
def OpenFoodFactsViewer.new : OpenFoodFactsViewer :=
  { search_term := ""
    search_results := []
    selected_product := none
    view := View.SearchResults
    is_loading := false
    error_message := none }

/-- A background fetch spawned by an action handler: `std::thread::spawn`
for a search (carrying the search term) or for a detail lookup (carrying
the product code put into the URL). -/
inductive WorkerTask where
  | search (term : String)
  | detail (code : String)
deriving DecidableEq, Repr

/-- Search button handler (src/main.rs lines 78-82): sets `is_loading`,
clears `error_message`, and spawns one search thread with a clone of the
current `search_term`. Everything else is untouched. -/
def onSearchSubmitted (s : OpenFoodFactsViewer) :
    OpenFoodFactsViewer × List WorkerTask :=
  ({ s with is_loading := true, error_message := none },
   [WorkerTask.search s.search_term])

/-- Product button handler (src/main.rs lines 131-135): sets
`view = ProductDetails` and `is_loading = true`, and spawns one detail
thread with `product.code.clone().unwrap_or("unknown")`. Note that it
does not touch `error_message`. -/
def onProductSelected (s : OpenFoodFactsViewer) (p : Product) :
    OpenFoodFactsViewer × List WorkerTask :=
  ({ s with view := View.ProductDetails, is_loading := true },
   [WorkerTask.detail (p.code.getD "unknown")])

/-- Back button handler (src/main.rs lines 174-177): returns to the
search view and clears the selection; spawns nothing. -/
def onBackRequested (s : OpenFoodFactsViewer) :
    OpenFoodFactsViewer × List WorkerTask :=
  ({ s with view := View.SearchResults, selected_product := none }, [])

/-- One arm of the drain loop `match message` (src/main.rs lines 185-198). -/
def applyMessage (s : OpenFoodFactsViewer) (m : Message) : OpenFoodFactsViewer :=
  match m with
  | Message.SearchResults results =>
      { s with search_results := results, is_loading := false }
  | Message.ProductDetails details =>
      { s with selected_product := some details, is_loading := false }
  | Message.Error err =>
      { s with error_message := some err, is_loading := false }

/-- The drain loop `while let Ok(message) = self.message_receiver.try_recv()`
(src/main.rs lines 184-199): applies every pending message in arrival
order. `msgs` is the queue content, oldest first. -/
def pollMessages (s : OpenFoodFactsViewer) (msgs : List Message) :
    OpenFoodFactsViewer :=
  msgs.foldl applyMessage s

/-- Payload of the last `Message.SearchResults` in the queue, if any
(a later message takes precedence over an earlier one). -/
def lastSearchResultsPayload : List Message → Option (List Product)
  | [] => none
  | m :: ms =>
    match lastSearchResultsPayload ms with
    | some rs => some rs
    | none =>
      match m with
      | Message.SearchResults rs => some rs
      | _ => none

/-- Payload of the last `Message.ProductDetails` in the queue, if any. -/
def lastDetailPayload : List Message → Option ProductDetails
  | [] => none
  | m :: ms =>
    match lastDetailPayload ms with
    | some d => some d
    | none =>
      match m with
      | Message.ProductDetails d => some d
      | _ => none

/-- Payload of the last `Message.Error` in the queue, if any. -/
def lastErrorPayload : List Message → Option String
  | [] => none
  | m :: ms =>
    match lastErrorPayload ms with
    | some e => some e
    | none =>
      match m with
      | Message.Error e => some e
      | _ => none

/-- A clickable widget of the central panel. -/
inductive UIButton where
  | product (p : Product)
  | back
deriving DecidableEq, Repr

/-- The buttons the central panel renders in a given state, following the
branch structure of src/main.rs lines 120-178: the `Loading...` label when
`is_loading`, else the error label when `error_message` is set, else one
button per search result in the `SearchResults` view, or the `Back`
button in the `ProductDetails` view. -/
def centralPanelButtons (s : OpenFoodFactsViewer) : List UIButton :=
  if s.is_loading then []
  else
    match s.error_message with
    | some _ => []
    | none =>
      match s.view with
      | View.SearchResults => s.search_results.map UIButton.product
      | View.ProductDetails => [UIButton.back]

/-- One frame-level transition of the controller: a click on a rendered
button, an edit of the search field, or the per-frame drain of the
channel with whatever messages the worker threads have queued. Product
and Back clicks require the button to be rendered in the current state
(they live inside the central-panel branches); the Search button sits in
the top panel and is always available. -/
inductive Step : OpenFoodFactsViewer → OpenFoodFactsViewer → Prop where
  | searchSubmitted (s : OpenFoodFactsViewer) :
      Step s (onSearchSubmitted s).1
  | productSelected (s : OpenFoodFactsViewer) (p : Product)
      (h : UIButton.product p ∈ centralPanelButtons s) :
      Step s (onProductSelected s p).1
  | backRequested (s : OpenFoodFactsViewer)
      (h : UIButton.back ∈ centralPanelButtons s) :
      Step s (onBackRequested s).1
  | poll (s : OpenFoodFactsViewer) (msgs : List Message) :
      Step s (pollMessages s msgs)
  | editTerm (s : OpenFoodFactsViewer) (t : String) :
      Step s { s with search_term := t }

/-- Whether a fallible external call succeeded. -/
def stepOk {α : Type} : Except String α → Bool
  | Except.ok _ => true
  | Except.error _ => false

/-- Search worker thread body (src/main.rs lines 83-114) as a function of
the results of its fallible external calls: `transport` is
`reqwest::blocking::get`, `text` is `response.text()`, `parseProduct` is
`serde_json::from_str::<Product>` on the body, `parseValue` is
`serde_json::from_str::<serde_json::Value>` on the body, and
`parseSearch` is `serde_json::from_value::<SearchResponse>`. Returns the
message sent, or `none` when the thread panics on an `unwrap` before
sending (the `.unwrap()` calls on `text`, `parseProduct` and
`parseValue`). The `sender.send(..).unwrap()` itself is assumed to
succeed (the receiver is alive). -/
def searchWorkerMessage (transport : Except String Unit)
    (text : Except String String) ( parseProduct : Except String Product)
    (parseValue : Except String Unit)
    (parseSearch : Except String (List Product)) : Option Message :=
  match transport with
  | Except.error e => some (Message.Error ("Failed to get response: " ++ e))
  | Except.ok _ =>
    match text with
    | Except.error _ => none
    | Except.ok _ =>
      match parseProduct with
      | Except.error _ => none
      | Except.ok _ =>
        match parseValue with
        | Except.error _ => none
        | Except.ok _ =>
          match parseSearch with
          | Except.ok products => some (Message.SearchResults products)
          | Except.error e =>
              some (Message.Error ("Failed to parse response: " ++ e))

/-- Detail worker thread body (src/main.rs lines 136-161) as a function of
the results of its fallible external calls: `transport` is
`reqwest::blocking::get` and `parseDetails` is
`response.json::<ProductDetailsResponse>()` (yielding the `product`
field). Both failure arms send a `Message.Error`; no `unwrap` sits on
the fetch/decode path, so the thread always sends. -/
def detailWorkerMessage (transport : Except String Unit)
    (parseDetails : Except String ProductDetails) : Option Message :=
  match transport with
  | Except.error e => some (Message.Error ("Details request failed: " ++ e))
  | Except.ok _ =>
    match parseDetails with
    | Except.ok d => some (Message.ProductDetails d)
    | Except.error e => some (Message.Error ("Failed to parse details: " ++ e))

/-- A sample product used by concrete witnesses. -/
def prodEx : Product := { code := some "1", product_name := some "Dark Chocolate" }

/-- A sample product detail used by concrete witnesses. -/
def pdEx : ProductDetails :=
  { code := "1", product_name := some "Dark Chocolate"
    ingredients_text := some "cocoa", brands := none }

/-- A sample pending-message queue used by concrete witnesses. -/
def msgsEx : List Message :=
  [Message.Error "boom", Message.SearchResults [prodEx], Message.ProductDetails pdEx]

/-- The state reached from the initial state by one click on Search. -/
def loadedStateEx : OpenFoodFactsViewer := (onSearchSubmitted OpenFoodFactsViewer.new).1

/-- A state in which the search view shows one product button. -/
def browsableStateEx : OpenFoodFactsViewer :=
  { OpenFoodFactsViewer.new with search_results := [prodEx] }

/-- A state with an error message set. -/
def erroredStateEx : OpenFoodFactsViewer :=
  { OpenFoodFactsViewer.new with error_message := some "boom" }

theorem pollMessages_nil (s : OpenFoodFactsViewer) : pollMessages s [] = s := rfl

theorem pollMessages_cons (s : OpenFoodFactsViewer) (m : Message) (ms : List Message) :
    pollMessages s (m :: ms) = pollMessages (applyMessage s m) ms := rfl

theorem applyMessage_view (s : OpenFoodFactsViewer) (m : Message) :
    (applyMessage s m).view = s.view := by
  cases m <;> rfl

theorem applyMessage_search_term (s : OpenFoodFactsViewer) (m : Message) :
    (applyMessage s m).search_term = s.search_term := by
  cases m <;> rfl

theorem applyMessage_is_loading (s : OpenFoodFactsViewer) (m : Message) :
    (applyMessage s m).is_loading = false := by
  cases m <;> rfl

theorem pollMessages_view (msgs : List Message) :
    ∀ s : OpenFoodFactsViewer, (pollMessages s msgs).view = s.view := by
  induction msgs with
  | nil => intro s; rfl
  | cons m ms ih =>
    intro s
    rw [pollMessages_cons, ih, applyMessage_view]

theorem pollMessages_search_term (msgs : List Message) :
    ∀ s : OpenFoodFactsViewer, (pollMessages s msgs).search_term = s.search_term := by
  induction msgs with
  | nil => intro s; rfl
  | cons m ms ih =>
    intro s
    rw [pollMessages_cons, ih, applyMessage_search_term]

theorem pollMessages_is_loading (msgs : List Message) (hne : msgs ≠ []) :
    ∀ s : OpenFoodFactsViewer, (pollMessages s msgs).is_loading = false := by
  induction msgs with
  | nil => exact absurd rfl hne
  | cons m ms ih =>
    intro s
    rw [pollMessages_cons]
    cases ms with
    | nil => rw [pollMessages_nil, applyMessage_is_loading]
    | cons m2 ms2 => exact ih (List.cons_ne_nil m2 ms2) (applyMessage s m)

theorem pollMessages_search_results (msgs : List Message) :
    ∀ s : OpenFoodFactsViewer,
      (pollMessages s msgs).search_results =
        (lastSearchResultsPayload msgs).getD s.search_results := by
  induction msgs with
  | nil => intro s; rfl
  | cons m ms ih =>
    intro s
    rw [pollMessages_cons, ih]
    cases h : lastSearchResultsPayload ms with
    | some rs => simp [lastSearchResultsPayload, h]
    | none => cases m <;> simp [lastSearchResultsPayload, h, applyMessage]

theorem pollMessages_selected_product (msgs : List Message) :
    ∀ s : OpenFoodFactsViewer,
      (pollMessages s msgs).selected_product =
        ((lastDetailPayload msgs).map some).getD s.selected_product := by
  induction msgs with
  | nil => intro s; rfl
  | cons m ms ih =>
    intro s
    rw [pollMessages_cons, ih]
    cases h : lastDetailPayload ms with
    | some d => simp [lastDetailPayload, h]
    | none => cases m <;> simp [lastDetailPayload, h, applyMessage]

theorem pollMessages_error_message (msgs : List Message) :
    ∀ s : OpenFoodFactsViewer,
      (pollMessages s msgs).error_message =
        ((lastErrorPayload msgs).map some).getD s.error_message := by
  induction msgs with
  | nil => intro s; rfl
  | cons m ms ih =>
    intro s
    rw [pollMessages_cons, ih]
    cases h : lastErrorPayload ms with
    | some e => simp [lastErrorPayload, h]
    | none => cases m <;> simp [lastErrorPayload, h, applyMessage]

/-- C1: `pollMessages` applies every pending message in arrival order:
a `SearchResults` message writes `search_results`, a `ProductDetails`
message writes `selected_product`, an `Error` message writes
`error_message`; every applied message clears `is_loading`, and after a
nonempty drain each written field holds the payload of the last message
of its variant (last one wins), the other fields and `view`/`search_term`
being as before the drain. -/
theorem pollMessages_drains_in_order (s : OpenFoodFactsViewer)
    (msgs : List Message) (rs : List Product) (d : ProductDetails)
    (e : String) (hne : msgs ≠ []) :
    applyMessage s (Message.SearchResults rs) =
      { s with search_results := rs, is_loading := false } ∧
    applyMessage s (Message.ProductDetails d) =
      { s with selected_product := some d, is_loading := false } ∧
    applyMessage s (Message.Error e) =
      { s with error_message := some e, is_loading := false } ∧
    (pollMessages s msgs).search_results =
      (lastSearchResultsPayload msgs).getD s.search_results ∧
    (pollMessages s msgs).selected_product =
      ((lastDetailPayload msgs).map some).getD s.selected_product ∧
    (pollMessages s msgs).error_message =
      ((lastErrorPayload msgs).map some).getD s.error_message ∧
    (pollMessages s msgs).is_loading = false ∧
    (pollMessages s msgs).view = s.view ∧
    (pollMessages s msgs).search_term = s.search_term :=
  ⟨rfl, rfl, rfl, pollMessages_search_results msgs s,
   pollMessages_selected_product msgs s, pollMessages_error_message msgs s,
   pollMessages_is_loading msgs hne s, pollMessages_view msgs s,
   pollMessages_search_term msgs s⟩

/-- Witness for C1 at the initial state and a concrete three-message queue. -/
theorem pollMessages_drains_in_order_witness :
    msgsEx ≠ [] ∧
    (applyMessage OpenFoodFactsViewer.new (Message.SearchResults [prodEx]) =
      { OpenFoodFactsViewer.new with
          search_results := [prodEx], is_loading := false } ∧
    applyMessage OpenFoodFactsViewer.new (Message.ProductDetails pdEx) =
      { OpenFoodFactsViewer.new with
          selected_product := some pdEx, is_loading := false } ∧
    applyMessage OpenFoodFactsViewer.new (Message.Error "boom") =
      { OpenFoodFactsViewer.new with
          error_message := some "boom", is_loading := false } ∧
    (pollMessages OpenFoodFactsViewer.new msgsEx).search_results =
      (lastSearchResultsPayload msgsEx).getD OpenFoodFactsViewer.new.search_results ∧
    (pollMessages OpenFoodFactsViewer.new msgsEx).selected_product =
      ((lastDetailPayload msgsEx).map some).getD OpenFoodFactsViewer.new.selected_product ∧
    (pollMessages OpenFoodFactsViewer.new msgsEx).error_message =
      ((lastErrorPayload msgsEx).map some).getD OpenFoodFactsViewer.new.error_message ∧
    (pollMessages OpenFoodFactsViewer.new msgsEx).is_loading = false ∧
    (pollMessages OpenFoodFactsViewer.new msgsEx).view = OpenFoodFactsViewer.new.view ∧
    (pollMessages OpenFoodFactsViewer.new msgsEx).search_term =
      OpenFoodFactsViewer.new.search_term) :=
  ⟨by simp [msgsEx],
   pollMessages_drains_in_order OpenFoodFactsViewer.new msgsEx [prodEx] pdEx
     "boom" (by simp [msgsEx])⟩

/-- C2 counterexample: a search fetch whose transport succeeds but whose
body is not valid JSON (e.g. an HTML error page) makes the search worker
panic on `serde_json::from_str::<Product>(..).unwrap()` and terminate
without sending any message, contradicting the claim that every decode
error is converted into a `Message.Error`. -/
theorem searchWorker_can_send_nothing :
    searchWorkerMessage (Except.ok ())
      (Except.ok "<html>Service Unavailable</html>")
      (Except.error "expected value at line 1 column 1")
      (Except.error "expected value at line 1 column 1")
      (Except.error "invalid type") = none := rfl

/-- C2 as amended: the detail worker sends exactly one message for every
fetch/decode outcome, converting transport and decode errors into
`Message.Error` texts; the search worker converts a transport error and
a `SearchResponse` decode error into `Message.Error`, but it sends a
message on a successful transport only when reading the body and the two
intermediate `unwrap`ped parses succeed — otherwise it panics and sends
nothing. -/
theorem workerTask_message_counts (t : Except String Unit)
    (pd : Except String ProductDetails) (tx : Except String String)
    (pp : Except String Product) (pv : Except String Unit)
    (ps : Except String (List Product)) (e b : String) (p : Product) :
    (detailWorkerMessage t pd).isSome = true ∧
    (searchWorkerMessage t tx pp pv ps).isSome =
      (!stepOk t || (stepOk tx && stepOk pp && stepOk pv)) ∧
    detailWorkerMessage (Except.error e) pd =
      some (Message.Error ("Details request failed: " ++ e)) ∧
    detailWorkerMessage (Except.ok ()) (Except.error e) =
      some (Message.Error ("Failed to parse details: " ++ e)) ∧
    searchWorkerMessage (Except.error e) tx pp pv ps =
      some (Message.Error ("Failed to get response: " ++ e)) ∧
    searchWorkerMessage (Except.ok ()) (Except.ok b) (Except.ok p)
      (Except.ok ()) (Except.error e) =
      some (Message.Error ("Failed to parse response: " ++ e)) := by
  refine ⟨?_, ?_, rfl, rfl, ?_, rfl⟩
  · cases t <;> cases pd <;> rfl
  · cases t <;> cases tx <;> cases pp <;> cases pv <;> cases ps <;> rfl
  · rfl

/-- C3: for every state (any `search_term`, including the empty string)
the Search click sets `is_loading`, clears `error_message`, spawns
exactly one search worker carrying the current term as-is, and leaves
`search_results`, `selected_product`, `view` and `search_term` unchanged. -/
theorem onSearchSubmitted_spec (s : OpenFoodFactsViewer) :
    (onSearchSubmitted s).1.is_loading = true ∧
    (onSearchSubmitted s).1.error_message = none ∧
    (onSearchSubmitted s).2 = [WorkerTask.search s.search_term] ∧
    (onSearchSubmitted s).1.search_results = s.search_results ∧
    (onSearchSubmitted s).1.selected_product = s.selected_product ∧
    (onSearchSubmitted s).1.view = s.view ∧
    (onSearchSubmitted s).1.search_term = s.search_term :=
  ⟨rfl, rfl, rfl, rfl, rfl, rfl, rfl⟩

/-- C4 counterexample: the product button handler does not write
`error_message`, so from a state with an error set, `onProductSelected`
leaves the error in place instead of setting it to `none` as the claim
states. -/
theorem onProductSelected_does_not_clear_error :
    (onProductSelected erroredStateEx prodEx).1.error_message ≠ none := by
  simp [onProductSelected, erroredStateEx]

/-- C4 as amended: `onProductSelected` sets `view = ProductDetails` and
`is_loading = true`, leaves `error_message` unchanged (it does not clear
it; the handler is only reachable from states where it is already
`none`), leaves `selected_product`, `search_results` and `search_term`
unchanged, and spawns exactly one detail worker with `product.code`, or
the sentinel string "unknown" when the code is absent. -/
theorem onProductSelected_spec (s : OpenFoodFactsViewer) (p : Product) :
    (onProductSelected s p).1.view = View.ProductDetails ∧
    (onProductSelected s p).1.is_loading = true ∧
    (onProductSelected s p).1.error_message = s.error_message ∧
    (onProductSelected s p).1.selected_product = s.selected_product ∧
    (onProductSelected s p).1.search_results = s.search_results ∧
    (onProductSelected s p).1.search_term = s.search_term ∧
    (onProductSelected s p).2 = [WorkerTask.detail (p.code.getD "unknown")] :=
  ⟨rfl, rfl, rfl, rfl, rfl, rfl, rfl⟩

/-- C6: applying `Message.Error e` clears `is_loading`, sets
`error_message = some e`, and leaves `search_results`,
`selected_product`, `view` and `search_term` exactly as they were. -/
theorem applyMessage_error_spec (s : OpenFoodFactsViewer) (e : String) :
    (applyMessage s (Message.Error e)).is_loading = false ∧
    (applyMessage s (Message.Error e)).error_message = some e ∧
    (applyMessage s (Message.Error e)).search_results = s.search_results ∧
    (applyMessage s (Message.Error e)).selected_product = s.selected_product ∧
    (applyMessage s (Message.Error e)).view = s.view ∧
    (applyMessage s (Message.Error e)).search_term = s.search_term :=
  ⟨rfl, rfl, rfl, rfl, rfl, rfl⟩

/-- C7: the Back handler is idempotent — applying it twice yields the
same state as applying it once, with `view = SearchResults` and
`selected_product = none` — and it is synchronous, spawning no worker. -/
theorem onBackRequested_idempotent (s : OpenFoodFactsViewer) :
    (onBackRequested (onBackRequested s).1).1 = (onBackRequested s).1 ∧
    (onBackRequested s).1.view = View.SearchResults ∧
    (onBackRequested s).1.selected_product = none ∧
    (onBackRequested s).2 = [] :=
  ⟨rfl, rfl, rfl, rfl⟩

/-- C8: the initial state built by `OpenFoodFactsViewer::new` has an
empty search term, no results, no selection, the `SearchResults` view,
`is_loading = false` and no error. -/
theorem initial_state_spec :
    OpenFoodFactsViewer.new.search_term = "" ∧
    OpenFoodFactsViewer.new.search_results = [] ∧
    OpenFoodFactsViewer.new.selected_product = none ∧
    OpenFoodFactsViewer.new.view = View.SearchResults ∧
    OpenFoodFactsViewer.new.is_loading = false ∧
    OpenFoodFactsViewer.new.error_message = none :=
  ⟨rfl, rfl, rfl, rfl, rfl, rfl⟩

/-- C9: applying a success message never modifies `error_message`; a
previously set error text survives success applications, product
selection and Back, and is cleared (among the controller's operations)
only by `onSearchSubmitted`. -/
theorem success_messages_preserve_error (s : OpenFoodFactsViewer)
    (rs : List Product) (d : ProductDetails) (p : Product) (e : String)
    (h : s.error_message = some e) :
    (applyMessage s (Message.SearchResults rs)).error_message = s.error_message ∧
    (applyMessage s (Message.ProductDetails d)).error_message = s.error_message ∧
    (applyMessage s (Message.SearchResults rs)).error_message = some e ∧
    (applyMessage s (Message.ProductDetails d)).error_message = some e ∧
    (onProductSelected s p).1.error_message = some e ∧
    (onBackRequested s).1.error_message = some e ∧
    (onSearchSubmitted s).1.error_message = none :=
  ⟨rfl, rfl, h, h, h, h, rfl⟩

/-- Witness for C9 at a concrete state carrying the error text "boom". -/
theorem success_messages_preserve_error_witness :
    erroredStateEx.error_message = some "boom" ∧
    ((applyMessage erroredStateEx (Message.SearchResults [prodEx])).error_message =
      erroredStateEx.error_message ∧
    (applyMessage erroredStateEx (Message.ProductDetails pdEx)).error_message =
      erroredStateEx.error_message ∧
    (applyMessage erroredStateEx (Message.SearchResults [prodEx])).error_message =
      some "boom" ∧
    (applyMessage erroredStateEx (Message.ProductDetails pdEx)).error_message =
      some "boom" ∧
    (onProductSelected erroredStateEx prodEx).1.error_message = some "boom" ∧
    (onBackRequested erroredStateEx).1.error_message = some "boom" ∧
    (onSearchSubmitted erroredStateEx).1.error_message = none) :=
  ⟨rfl, success_messages_preserve_error erroredStateEx [prodEx] pdEx prodEx "boom" rfl⟩

theorem product_button_mem (s : OpenFoodFactsViewer) (p : Product)
    (h : UIButton.product p ∈ centralPanelButtons s) :
    s.is_loading = false ∧ s.error_message = none ∧ s.view = View.SearchResults := by
  cases hl : s.is_loading with
  | true => simp [centralPanelButtons, hl] at h
  | false =>
    cases he : s.error_message with
    | some e => simp [centralPanelButtons, hl, he] at h
    | none =>
      cases hv : s.view with
      | SearchResults => exact ⟨rfl, rfl, rfl⟩
      | ProductDetails => simp [centralPanelButtons, hl, he, hv] at h

theorem back_button_mem (s : OpenFoodFactsViewer)
    (h : UIButton.back ∈ centralPanelButtons s) :
    s.is_loading = false ∧ s.error_message = none ∧ s.view = View.ProductDetails := by
  cases hl : s.is_loading with
  | true => simp [centralPanelButtons, hl] at h
  | false =>
    cases he : s.error_message with
    | some e => simp [centralPanelButtons, hl, he] at h
    | none =>
      cases hv : s.view with
      | SearchResults => simp [centralPanelButtons, hl, he, hv] at h
      | ProductDetails => exact ⟨rfl, rfl, rfl⟩

/-- C10: a product button is rendered in the central panel only when the
controller is not loading, has no error set, and is in the
`SearchResults` view — so product selection can never fire outside such
a state. -/
theorem productSelection_only_when_idle (s : OpenFoodFactsViewer) (p : Product)
    (h : UIButton.product p ∈ centralPanelButtons s) :
    s.is_loading = false ∧ s.error_message = none ∧ s.view = View.SearchResults :=
  product_button_mem s p h

/-- Witness for C10 at a concrete idle state showing one result. -/
theorem productSelection_only_when_idle_witness :
    UIButton.product prodEx ∈ centralPanelButtons browsableStateEx ∧
    (browsableStateEx.is_loading = false ∧
     browsableStateEx.error_message = none ∧
     browsableStateEx.view = View.SearchResults) :=
  ⟨by decide,
   productSelection_only_when_idle browsableStateEx prodEx (by decide)⟩

/-- C5: in every state reachable from the initial state by clicks on
rendered buttons, edits of the search field and per-frame channel
drains, `is_loading = true` implies `error_message = none`. -/
theorem loading_implies_no_error (s : OpenFoodFactsViewer)
    (hreach : Relation.ReflTransGen Step OpenFoodFactsViewer.new s)
    (hl : s.is_loading = true) : s.error_message = none := by
  revert hl
  induction hreach with
  | refl => intro hl; simp [OpenFoodFactsViewer.new] at hl
  | tail hab hstep ih =>
    intro hl
    cases hstep with
    | searchSubmitted => rfl
    | productSelected p hb => exact (product_button_mem _ p hb).2.1
    | backRequested hb => exact (back_button_mem _ hb).2.1
    | poll msgs =>
      cases msgs with
      | nil => exact ih hl
      | cons m ms =>
        rw [pollMessages_is_loading (m :: ms) (List.cons_ne_nil m ms)] at hl
        exact Bool.noConfusion hl
    | editTerm t => exact ih hl

/-- Witness for C5 at the loading state reached by one Search click. -/
theorem loading_implies_no_error_witness :
    Relation.ReflTransGen Step OpenFoodFactsViewer.new loadedStateEx ∧
    loadedStateEx.is_loading = true ∧
    loadedStateEx.error_message = none :=
  ⟨Relation.ReflTransGen.single (Step.searchSubmitted OpenFoodFactsViewer.new),
   rfl,
   loading_implies_no_error loadedStateEx
     (Relation.ReflTransGen.single (Step.searchSubmitted OpenFoodFactsViewer.new))
     rfl⟩

end OpenFoodFacts
